import Mathlib

/-!
Shallow embedding of `src/main.py` (a Selenium-based chat load tester).

The browser, the target web application and the clock are external
collaborators; they are modelled as explicit environment records whose
fields give the outcome of each browser interaction (`Except String α`
for a step that may throw, plain data for a step that cannot).  The
Python control flow — the `try`/`except` structure, the polling loops,
the queue drain and the file writes — is translated line by line into
total Lean functions over these environments.
-/

namespace StressTest

/-- Embedding of the `TestConfig` dataclass (src/main.py lines 20-39). -/
structure TestConfig where
  base_url : String
  email : String
  password : String
  num_sessions : Nat
  response_timeout : Nat
  file_path : Option String
  headless : Bool
deriving Repr, DecidableEq

/-- One record put on `results_queue` by a worker: the dict built at
src/main.py lines 314-318 (success path) or lines 323-330 (degraded
path).  `response_time` is in abstract clock units. -/
structure SessionResult where
  session_id : Nat
  timestamp : String
  prompt : Option String
  response : Option String
  errors : List String
  response_time : Option Nat
deriving Repr, DecidableEq

/-- Outcome of one iteration of the login polling loop's condition check
(src/main.py line 133): the check either returns a boolean without
throwing, or throws. -/
inductive PollOutcome where
  | succ (b : Bool)
  | throws
deriving Repr, DecidableEq

/-- The `for _ in range(12)` polling loop of `login` (src/main.py lines
131-138), over the list of per-iteration check outcomes.  Returns the
boolean result together with the total seconds slept: as in the source,
`time.sleep(5)` executes only in the `except` branch, so a check that
returns `False` without throwing proceeds immediately to the next
iteration. -/
def loginLoop : List PollOutcome → Bool × Nat
  | [] => (false, 0)
  | PollOutcome.succ true :: _ => (true, 0)
  | PollOutcome.succ false :: rest => loginLoop rest
  | PollOutcome.throws :: rest =>
      let r := loginLoop rest
      (r.1, r.2 + 5)

/-- Embedding of `ChatLoadTester.login` (src/main.py lines 98-144).
`pre` is the combined outcome of the steps before the polling loop
(navigate, fill email, fill password, click): if any of them throws the
outer `except` returns `False`.  Otherwise the 12-iteration polling
loop runs on the check outcomes `poll 0 .. poll 11`.  The result pairs
the returned boolean with the total seconds slept. -/
def login (pre : Except String Unit) (poll : Nat → PollOutcome) : Bool × Nat :=
  match pre with
  | Except.error _ => (false, 0)
  | Except.ok _ => loginLoop ((List.range 12).map poll)

/-- Embedding of `ChatLoadTester.upload_file` (src/main.py lines
250-284): returns `true` immediately when no file is configured,
otherwise the outcome is environment-determined (`uploadEnv` is `false`
when the file input or success marker never appears, i.e. the `except`
branch returns `False`). -/
def upload_file (cfg : TestConfig) (uploadEnv : Bool) : Bool :=
  match cfg.file_path with
  | none => true
  | some _ => uploadEnv

/-- The `response_received` predicate defined inside
`send_prompt_and_wait` (src/main.py lines 229-231): more than one
element of class `question-input` exists and the second one carries
non-empty content.  The argument is the list of `question-input` values
in the DOM at the moment of the check. -/
def response_received (textareas : List String) : Bool :=
  decide (textareas.length > 1) && decide (textareas.getD 1 "" ≠ "")

/-- Embedding of `WebDriverWait(driver, timeout).until(cond)`: the
condition is sampled at successive poll instants `0, 1, ...` within the
timeout window; the first instant at which it holds is returned, and if
it never holds within the window a `TimeoutException` is raised. -/
def waitUntil (timeout : Nat) (cond : Nat → Bool) : Except String Nat :=
  match (List.range timeout).find? cond with
  | some t => Except.ok t
  | none => Except.error "TimeoutException"

/-- Environment for one call of `send_prompt_and_wait`: the outcome of
each browser interaction.  `check_for_errors` (src/main.py lines
146-185) catches every exception internally and always returns a list
of strings, so its three call sites appear as the plain lists
`errorsBefore`, `errorsAfter` and `errorsCatch`.  `textareas t` is the
list of `question-input` values in the DOM at poll instant `t`. -/
structure PromptEnv where
  locateInput : Except String Unit
  errorsBefore : List String
  typeAndClick : Except String Unit
  textareas : Nat → List String
  readResponse : Except String String
  errorsAfter : List String
  errorsCatch : List String
  elapsed : Nat

/-- The result dict built by `send_prompt_and_wait` (src/main.py lines
204-209). -/
structure PromptResult where
  prompt : String
  response : Option String
  errors : List String
  response_time : Option Nat
deriving Repr, DecidableEq

/-- Embedding of `ChatLoadTester.send_prompt_and_wait` (src/main.py
lines 187-248).  The steps run in source order: locate the input box,
collect pre-send errors, type and click, wait for `response_received`
up to `response_timeout`, read the second textarea's value, collect
post-receive errors.  Any throwing step jumps to the `except` branch,
which appends `"Error sending prompt: " ++ e` and one more
`check_for_errors` result to the errors accumulated so far; the
function itself never throws. -/
def send_prompt_and_wait (cfg : TestConfig) (env : PromptEnv) (prompt : String) :
    PromptResult :=
  match env.locateInput with
  | Except.error e =>
      ⟨prompt, none, ("Error sending prompt: " ++ e) :: env.errorsCatch, none⟩
  | Except.ok _ =>
    match env.typeAndClick with
    | Except.error e =>
        ⟨prompt, none,
          env.errorsBefore ++ ("Error sending prompt: " ++ e) :: env.errorsCatch, none⟩
    | Except.ok _ =>
      match waitUntil cfg.response_timeout (fun t => response_received (env.textareas t)) with
      | Except.error e =>
          ⟨prompt, none,
            env.errorsBefore ++ ("Error sending prompt: " ++ e) :: env.errorsCatch, none⟩
      | Except.ok _ =>
        match env.readResponse with
        | Except.error e =>
            ⟨prompt, none,
              env.errorsBefore ++ ("Error sending prompt: " ++ e) :: env.errorsCatch, none⟩
        | Except.ok resp =>
            ⟨prompt, some resp, env.errorsBefore ++ env.errorsAfter, some env.elapsed⟩

/-- The prompt selection expression `self.test_prompts[session_id %
len(self.test_prompts)]` (src/main.py line 310), for a non-empty prompt
list (the empty case raises in Python and is handled by the caller's
`except`). -/
def promptFor (prompts : List String) (session_id : Nat) : String :=
  prompts.getD (session_id % prompts.length) ""

/-- Environment for one worker: whether `setup_driver` succeeds, the
login environment, the upload outcome, the prompt-exchange environment,
and the timestamp taken when the result dict is built. -/
structure WorkerEnv where
  setupOk : Bool
  loginPre : Except String Unit
  loginPolls : Nat → PollOutcome
  uploadResult : Bool
  promptEnv : PromptEnv
  timestamp : String

/-- The degraded record put on the queue by the `except` branch of
`run_chat_session` (src/main.py lines 323-330): the failure reason as
the only error string, null prompt, response and response_time. -/
def degraded (session_id : Nat) (ts : String) (msg : String) : SessionResult :=
  ⟨session_id, ts, none, none, [msg], none⟩

/-- Embedding of `ChatLoadTester.run_chat_session` (src/main.py lines
286-333), returning the record the worker puts on the results queue, or
`none` when it puts nothing.  Control flow of the source: if
`setup_driver` throws, `driver` is still `None`, so the `except` branch
puts nothing; a failed login or upload raises inside the `try`, and
since `driver` is set the `except` branch puts a degraded record; an
empty prompt list makes `session_id % 0` raise `ZeroDivisionError`,
again caught with a degraded record; otherwise the
`send_prompt_and_wait` result is merged with the session id and
timestamp and put on the queue. -/
def run_chat_session (cfg : TestConfig) (prompts : List String) (env : WorkerEnv)
    (session_id : Nat) : Option SessionResult :=
  if env.setupOk then
    if (login env.loginPre env.loginPolls).1 then
      if upload_file cfg env.uploadResult then
        match prompts with
        | [] => some (degraded session_id env.timestamp
            "integer division or modulo by zero")
        | _ :: _ =>
          let r := send_prompt_and_wait cfg env.promptEnv (promptFor prompts session_id)
          some ⟨session_id, env.timestamp, some r.prompt, r.response, r.errors,
            r.response_time⟩
      else some (degraded session_id env.timestamp "File upload failed")
    else some (degraded session_id env.timestamp "Login failed")
  else none

/-- State shared between workers and orchestrator: the results queue
and the persistent storage, modelled as the working directory — the
ordered list of (filename, contents) pairs present on disk. -/
structure SinkState where
  queueRecs : List SessionResult
  files : List (String × List SessionResult)
deriving Repr, DecidableEq

/-- The report filename computed at src/main.py line 346 from the
current wall-clock time: `now` stands for the value of
`datetime.now().strftime("%Y%m%d_%H%M%S")` at the moment of the call —
note the second resolution, so two saves within the same second compute
the identical name. -/
def reportName (now : String) : String :=
  "results_" ++ now ++ ".json"

/-- Embedding of `open(filename, 'w')` followed by `json.dump`: if a
file of that name already exists it is truncated and its content
replaced, otherwise a new file is created at the end of the
directory. -/
def writeFile (name : String) (content : List SessionResult)
    (dir : List (String × List SessionResult)) :
    List (String × List SessionResult) :=
  if dir.any (fun f => f.1 == name) then
    dir.map (fun f => if f.1 == name then (name, content) else f)
  else dir ++ [(name, content)]

/-- Embedding of `ChatLoadTester.save_results` (src/main.py lines
335-349): drain the whole queue in order into `results`, then write
`results` to the file named after the wall-clock second `now` —
truncating any earlier report that was written within the same
second. -/
def save_results (now : String) (s : SinkState) : SinkState :=
  ⟨[], writeFile (reportName now) s.queueRecs s.files⟩

/-- The session identifiers passed to the launched worker threads:
`i + 1` for `i in range(num_sessions)` (src/main.py lines 361-362). -/
def launchedIds (cfg : TestConfig) : List Nat :=
  (List.range cfg.num_sessions).map (fun i => i + 1)

/-- The records the `num_sessions` workers put on the queue, worker `i`
running under environment `envs i` with session id `i + 1`.  The queue
admits any interleaving of the concurrent appends; this fixes the
launch order as the canonical one (every claim proved about it is
invariant under permutation). -/
def workerRecords (cfg : TestConfig) (prompts : List String)
    (envs : Nat → WorkerEnv) : List SessionResult :=
  (List.range cfg.num_sessions).filterMap
    (fun i => run_chat_session cfg prompts (envs i) (i + 1))

/-- Embedding of `ChatLoadTester.run_load_test` (src/main.py lines
351-372): launch the workers, join them all, then call `save_results`;
`t` is the wall-clock second at which that save runs. -/
def run_load_test (cfg : TestConfig) (prompts : List String)
    (envs : Nat → WorkerEnv) (t : String) (s : SinkState) : SinkState :=
  save_results t ⟨s.queueRecs ++ workerRecords cfg prompts envs, s.files⟩

/-- How one run of `main` (src/main.py lines 374-398) ends: either
`run_load_test` returns normally — `t1` the wall-clock second of its
own save, `t2` that of the save in the `finally` block moments later —
or a `KeyboardInterrupt` lands while it runs, at a point where `queued`
records have reached the queue and no report has been written yet,
with `t2` the second of the `finally` save. -/
inductive RunOutcome where
  | completed (envs : Nat → WorkerEnv) (t1 t2 : String)
  | interrupted (queued : List SessionResult) (t2 : String)

/-- Embedding of `main` (src/main.py lines 374-398): on the normal path
the `try` body runs `run_load_test` to completion, on the interrupted
path the `except KeyboardInterrupt` branch only logs; on both paths the
`finally` block then calls `save_results` unconditionally. -/
def pythonMain (cfg : TestConfig) (prompts : List String) : RunOutcome → SinkState
  | RunOutcome.completed envs t1 t2 =>
      save_results t2 (run_load_test cfg prompts envs t1 ⟨[], []⟩)
  | RunOutcome.interrupted queued t2 => save_results t2 ⟨queued, []⟩

/-! Concrete fixtures used to instantiate the theorems on closed inputs. -/

/-- A configuration with three sessions, a 30-second response timeout
and no upload file. -/
def cfgBase : TestConfig := ⟨"http://x", "e", "p", 3, 30, none, true⟩

/-- A prompt-exchange environment in which every browser step
succeeds trivially. -/
def peTrivial : PromptEnv :=
  ⟨Except.ok (), [], Except.ok (), fun _ => [], Except.ok "", [], [], 0⟩

/-- A prompt-exchange environment in which the pre-send steps succeed
but the `question-input` list stays empty, so the response-detection
condition never holds. -/
def peTimeout : PromptEnv :=
  ⟨Except.ok (), ["pre"], Except.ok (), fun _ => [], Except.ok "", [], ["post"], 0⟩

/-- A worker environment in which `setup_driver` throws, so the worker
never acquires a browser instance. -/
def envNoDriver : WorkerEnv :=
  ⟨false, Except.ok (), fun _ => PollOutcome.succ true, true, peTrivial, "t0"⟩

/-- A worker environment in which the browser is acquired but the login
navigation throws, so `login` returns false. -/
def envLoginFail : WorkerEnv :=
  ⟨true, Except.error "no page", fun _ => PollOutcome.throws, true, peTrivial, "t0"⟩

/-- A worker environment in which setup, login and upload all
succeed. -/
def envSuccess : WorkerEnv :=
  ⟨true, Except.ok (), fun _ => PollOutcome.succ true, true, peTrivial, "t1"⟩

/-! Helper lemmas shared by the claim theorems. -/

/-- Every record a worker produces carries that worker's own session id. -/
theorem run_chat_session_session_id (cfg : TestConfig) (prompts : List String)
    (env : WorkerEnv) (sid : Nat) (r : SessionResult)
    (h : run_chat_session cfg prompts env sid = some r) : r.session_id = sid := by
  unfold run_chat_session at h
  repeat (any_goals split at h)
  all_goals cases h
  all_goals rfl

/-- In a result of the prompt/response exchange, the response text and
the response time are null together. -/
theorem send_prompt_pairs (cfg : TestConfig) (env : PromptEnv) (p : String) :
    ((send_prompt_and_wait cfg env p).response = none
      ↔ (send_prompt_and_wait cfg env p).response_time = none) := by
  unfold send_prompt_and_wait
  repeat (any_goals split)
  all_goals simp

/-- The prompt field of the result of the exchange is always the prompt
that was passed in. -/
theorem send_prompt_prompt (cfg : TestConfig) (env : PromptEnv) (p : String) :
    (send_prompt_and_wait cfg env p).prompt = p := by
  unfold send_prompt_and_wait
  repeat (any_goals split)
  all_goals rfl

/-- The record produced by a worker whose setup, login and upload all
succeed, for a non-empty prompt list. -/
theorem run_chat_session_success (cfg : TestConfig) (prompts : List String)
    (env : WorkerEnv) (sid : Nat) (hne : prompts ≠ [])
    (hs : env.setupOk = true)
    (hl : (login env.loginPre env.loginPolls).1 = true)
    (hu : upload_file cfg env.uploadResult = true) :
    run_chat_session cfg prompts env sid
      = some ⟨sid, env.timestamp,
          some (promptFor prompts sid),
          (send_prompt_and_wait cfg env.promptEnv (promptFor prompts sid)).response,
          (send_prompt_and_wait cfg env.promptEnv (promptFor prompts sid)).errors,
          (send_prompt_and_wait cfg env.promptEnv (promptFor prompts sid)).response_time⟩ := by
  cases prompts with
  | nil => exact absurd rfl hne
  | cons p ps =>
    unfold run_chat_session
    simp [hs, hl, hu, send_prompt_prompt]

/-- Distinct wall-clock seconds yield distinct report filenames. -/
theorem reportName_ne (t1 t2 : String) (h : t1 ≠ t2) :
    reportName t1 ≠ reportName t2 := by
  intro he
  apply h
  have hd := congrArg String.data he
  simp [reportName, String.data_append] at hd
  cases t1; cases t2; simp_all

/-- A filterMap whose values at each point are either nothing or the
image of the point is a sublist of the map of the whole list. -/
theorem filterMap_sublist_map {α β : Type} (f : α → Option β) (g : α → β)
    (l : List α) (h : ∀ a ∈ l, f a = none ∨ f a = some (g a)) :
    List.Sublist (l.filterMap f) (l.map g) := by
  induction l with
  | nil => simp
  | cons a l ih =>
    have ihl := ih (fun x hx => h x (List.mem_cons_of_mem a hx))
    rcases h a (List.mem_cons_self a l) with ha | ha
    · rw [List.filterMap_cons, ha, List.map_cons]
      exact ihl.cons (g a)
    · rw [List.filterMap_cons, ha, List.map_cons]
      exact ihl.cons₂ (g a)

/-! Claim theorems. -/

/-- C1: evaluation of the run at the failing input.  On a normal
(uninterrupted) run whose two saves fall within the same wall-clock
second t — the typical case, since the finally-block save of main runs
moments after the save inside run_load_test — the second save computes
the identical report filename and, draining the now-empty queue,
truncates the file: persistent storage at process exit holds exactly
one report and it is empty.  The full ResultSet, though written once at
end-of-run, is destroyed rather than persisted, contradicting the claim
that every run leaves the drained results written exactly once. -/
theorem normal_path_report_truncated (cfg : TestConfig) (prompts : List String)
    (envs : Nat → WorkerEnv) (t : String) :
    (pythonMain cfg prompts (RunOutcome.completed envs t t)).files
      = [(reportName t, [])] := by
  simp [pythonMain, run_load_test, save_results, writeFile]

/-- C3 counterexample: with the 2-element prompt list ["A", "B"], the
workers for sessions 1, 2, 3 do not send "A", "B", "A": the selection
index is the raw session id modulo the length, and session 1 gets
"B". -/
theorem prompt_scenario_refuted :
    ¬ (promptFor ["A", "B"] 1 = "A" ∧ promptFor ["A", "B"] 2 = "B"
        ∧ promptFor ["A", "B"] 3 = "A") := by
  decide

/-- C3 amended: with num_sessions = 3 the orchestrator hands session
ids 1, 2, 3 to the workers, and with the prompt list ["A", "B"] those
sessions send prompts "B", "A", "B" respectively (selection is
session_id mod 2 over a 1-indexed session id). -/
theorem prompt_scenario :
    launchedIds ⟨"http://x", "e", "p", 3, 30, none, true⟩ = [1, 2, 3]
    ∧ (launchedIds ⟨"http://x", "e", "p", 3, 30, none, true⟩).map
        (promptFor ["A", "B"]) = ["B", "A", "B"] := by
  decide

/-- C4: evaluation of the login routine at the failing input.  When the
pre-poll steps succeed and all 12 condition checks return false without
throwing, the code runs the whole polling loop with zero seconds of
sleep (the sleep sits only in the exception branch) and returns false
immediately, contradicting the claimed fixed 5-second interval between
consecutive non-throwing false polls (which would make at least 5
seconds elapse). -/
theorem login_spins_without_sleep :
    login (Except.ok ()) (fun _ => PollOutcome.succ false) = (false, 0)
    ∧ ¬ 5 ≤ (login (Except.ok ()) (fun _ => PollOutcome.succ false)).2 := by
  decide

/-- C5 counterexample: two immediate successive saves fall within the
same wall-clock second, compute the same report filename, and the
second — draining the now-empty sink — truncates the first: storage
ends with a single empty report file, not two distinct files. -/
theorem save_twice_refuted :
    (save_results "20240101_120000" (save_results "20240101_120000"
        ⟨[degraded 1 "t" "Login failed"], []⟩)).files
      = [(reportName "20240101_120000", [])]
    ∧ (save_results "20240101_120000" (save_results "20240101_120000"
        ⟨[degraded 1 "t" "Login failed"], []⟩)).files.length ≠ 2 := by
  decide

/-- C5 amended: invoking the save routine twice in succession when the
sink is empty after the first drain never counts an already-drained
record again — the second write carries no records — and, provided the
two invocations fall in distinct wall-clock seconds (distinct timestamp
strings, hence distinct filenames), storage gains two distinct files
with the second containing no records.  When the two saves share the
second, the one shared file ends empty, as the counterexample shows. -/
theorem save_twice_second_empty (recs : List SessionResult) (t1 t2 : String)
    (h : t1 ≠ t2) :
    (save_results t1 (⟨recs, []⟩ : SinkState)).queueRecs = []
    ∧ (save_results t2 (save_results t1 ⟨recs, []⟩)).files
        = [(reportName t1, recs), (reportName t2, [])]
    ∧ (save_results t2 (save_results t1 ⟨recs, []⟩)).files.length = 2
    ∧ ((save_results t2 (save_results t1 ⟨recs, []⟩)).files.map Prod.fst).Nodup := by
  have hne := reportName_ne t1 t2 h
  have hbeq : (reportName t1 == reportName t2) = false :=
    beq_eq_false_iff_ne.mpr hne
  refine ⟨rfl, ?_, ?_, ?_⟩
  · simp [save_results, writeFile, hbeq]
  · simp [save_results, writeFile, hbeq]
  · simp [save_results, writeFile, hbeq, hne]

/-- C5 witness: the amended theorem at two concrete saves one second
apart. -/
theorem save_twice_second_empty_witness :
    (save_results "20240101_120000"
        (⟨[degraded 1 "t" "Login failed"], []⟩ : SinkState)).queueRecs = []
    ∧ (save_results "20240101_120001" (save_results "20240101_120000"
          ⟨[degraded 1 "t" "Login failed"], []⟩)).files
        = [(reportName "20240101_120000", [degraded 1 "t" "Login failed"]),
            (reportName "20240101_120001", [])]
    ∧ (save_results "20240101_120001" (save_results "20240101_120000"
          ⟨[degraded 1 "t" "Login failed"], []⟩)).files.length = 2
    ∧ ((save_results "20240101_120001" (save_results "20240101_120000"
          ⟨[degraded 1 "t" "Login failed"], []⟩)).files.map Prod.fst).Nodup :=
  save_twice_second_empty [degraded 1 "t" "Login failed"]
    "20240101_120000" "20240101_120001" (by decide)

/-- C2 counterexample: a launched worker whose browser acquisition
fails emits no SessionResult at all — `driver` is still None when the
exception is caught, so the degraded-record branch is skipped — refuting
the claim that every launched worker emits exactly one record even on
failure to acquire a browser instance. -/
theorem worker_emission_refuted :
    run_chat_session cfgBase ["A"] envNoDriver 1 = none := rfl

/-- C2 amended: every worker that acquires a browser instance emits
exactly one SessionResult, on the success path and on every failure
path alike; in particular a worker that fails at login still appends a
degraded SessionResult carrying the failure reason as its only error
string and null prompt, response and timing.  (A worker that fails to
acquire a browser emits nothing, as the counterexample shows.) -/
theorem worker_emission (cfg : TestConfig) (prompts : List String)
    (env : WorkerEnv) (sid : Nat) (h : env.setupOk = true) :
    (run_chat_session cfg prompts env sid).isSome = true
    ∧ ((login env.loginPre env.loginPolls).1 = false →
        run_chat_session cfg prompts env sid
          = some (degraded sid env.timestamp "Login failed")) := by
  unfold run_chat_session
  rw [h]
  by_cases hl : (login env.loginPre env.loginPolls).1
  · simp only [hl, if_true]
    refine ⟨?_, fun hc => absurd hc (by simp)⟩
    by_cases hu : upload_file cfg env.uploadResult
    · simp only [hu, if_true]
      cases prompts <;> simp
    · simp [hu]
  · simp [hl]

/-- C2 witness: the amended theorem at a concrete worker whose login
fails. -/
theorem worker_emission_witness :
    (run_chat_session cfgBase ["A"] envLoginFail 1).isSome = true
    ∧ run_chat_session cfgBase ["A"] envLoginFail 1
        = some (degraded 1 "t0" "Login failed") := by
  have h := worker_emission cfgBase ["A"] envLoginFail 1 rfl
  exact ⟨h.1, h.2 rfl⟩

/-- C6: for every session identifier s and non-empty prompt list, the
prompt the worker sends for session s is the list entry at index
s mod length; selection is deterministic and identifiers k and
k + length select the identical prompt text. -/
theorem prompt_selection (cfg : TestConfig) (prompts : List String)
    (env : WorkerEnv) (s k : Nat) (hne : prompts ≠ [])
    (hs : env.setupOk = true)
    (hl : (login env.loginPre env.loginPolls).1 = true)
    (hu : upload_file cfg env.uploadResult = true) :
    (∃ r, run_chat_session cfg prompts env s = some r
        ∧ r.prompt = some (prompts.getD (s % prompts.length) ""))
    ∧ promptFor prompts k = promptFor prompts (k + prompts.length) := by
  constructor
  · exact ⟨_, run_chat_session_success cfg prompts env s hne hs hl hu, rfl⟩
  · unfold promptFor
    rw [Nat.add_mod_right]

/-- C6 witness: the theorem at a concrete fully succeeding worker with
prompts ["A", "B"], session 1 and offset identifier 0. -/
theorem prompt_selection_witness :
    (∃ r, run_chat_session cfgBase ["A", "B"] envSuccess 1 = some r
        ∧ r.prompt = some ((["A", "B"] : List String).getD
            (1 % (["A", "B"] : List String).length) ""))
    ∧ promptFor ["A", "B"] 0 = promptFor ["A", "B"] (0 + (["A", "B"] : List String).length) :=
  prompt_selection cfgBase ["A", "B"] envSuccess 1 0 (by simp) rfl rfl rfl

/-- C8: if the response-detection condition is never satisfied within
response_timeout units during the exchange, the result of
send_prompt_and_wait carries a TimeoutException error entry (no retry,
no propagated exception — the function returns normally), a null
response and a null response_time, and its error list is non-empty. -/
theorem timeout_surfaces_as_error (cfg : TestConfig) (env : PromptEnv) (p : String)
    (h1 : env.locateInput = Except.ok ())
    (h2 : env.typeAndClick = Except.ok ())
    (h : ∀ t, t < cfg.response_timeout → response_received (env.textareas t) = false) :
    send_prompt_and_wait cfg env p
      = ⟨p, none,
          env.errorsBefore ++ ("Error sending prompt: TimeoutException") :: env.errorsCatch,
          none⟩
    ∧ (send_prompt_and_wait cfg env p).errors ≠ [] := by
  have hw : waitUntil cfg.response_timeout (fun t => response_received (env.textareas t))
      = Except.error "TimeoutException" := by
    unfold waitUntil
    have hfind : (List.range cfg.response_timeout).find?
        (fun t => response_received (env.textareas t)) = none :=
      List.find?_eq_none.mpr (fun x hx => by simp [h x (List.mem_range.mp hx)])
    rw [hfind]
  have hmain : send_prompt_and_wait cfg env p
      = ⟨p, none,
          env.errorsBefore ++ ("Error sending prompt: TimeoutException") :: env.errorsCatch,
          none⟩ := by
    unfold send_prompt_and_wait
    rw [h1, h2, hw]
    rfl
  refine ⟨hmain, ?_⟩
  rw [hmain]
  simp

/-- C8 witness: the theorem at a concrete environment whose
`question-input` list never gains a second element. -/
theorem timeout_surfaces_as_error_witness :
    send_prompt_and_wait cfgBase peTimeout "Q"
      = ⟨"Q", none,
          peTimeout.errorsBefore
            ++ ("Error sending prompt: TimeoutException") :: peTimeout.errorsCatch,
          none⟩
    ∧ (send_prompt_and_wait cfgBase peTimeout "Q").errors ≠ [] :=
  timeout_surfaces_as_error cfgBase peTimeout "Q" rfl rfl (fun _ _ => rfl)

/-- C10: every record a worker appends to the sink has a null response
field exactly when it has a null response_time field: the success path
records both the response text and its latency, and every failure path
records neither. -/
theorem response_null_iff_time_null (cfg : TestConfig) (prompts : List String)
    (env : WorkerEnv) (sid : Nat) (r : SessionResult)
    (h : run_chat_session cfg prompts env sid = some r) :
    (r.response = none ↔ r.response_time = none) := by
  unfold run_chat_session at h
  repeat (any_goals split at h)
  all_goals cases h
  all_goals first
    | (simp [degraded]; done)
    | exact send_prompt_pairs cfg env.promptEnv _

/-- C10 witness: the theorem at a concrete degraded record produced by
a login failure. -/
theorem response_null_iff_time_null_witness :
    ((degraded 2 "t0" "Login failed").response = none
      ↔ (degraded 2 "t0" "Login failed").response_time = none) :=
  response_null_iff_time_null cfgBase ["A"] envLoginFail 2
    (degraded 2 "t0" "Login failed") rfl

/-- C7: for every configured num_sessions = N, the orchestrator
launches and joins exactly N worker threads (the launched session id
list has length N), and the ResultSet drained after the join contains
at most N records, each with a session identifier in [1, N], no two
records sharing a session identifier. -/
theorem orchestrator_bounds (cfg : TestConfig) (prompts : List String)
    (envs : Nat → WorkerEnv) :
    (launchedIds cfg).length = cfg.num_sessions
    ∧ (workerRecords cfg prompts envs).length ≤ cfg.num_sessions
    ∧ (∀ r ∈ workerRecords cfg prompts envs,
        1 ≤ r.session_id ∧ r.session_id ≤ cfg.num_sessions)
    ∧ ((workerRecords cfg prompts envs).map (fun r => r.session_id)).Nodup := by
  refine ⟨by simp [launchedIds], ?_, ?_, ?_⟩
  · have hlen := List.length_filterMap_le
      (fun i => run_chat_session cfg prompts (envs i) (i + 1))
      (List.range cfg.num_sessions)
    simpa [workerRecords] using hlen
  · intro r hr
    have hr2 : ∃ i < cfg.num_sessions,
        run_chat_session cfg prompts (envs i) (i + 1) = some r := by
      simpa [workerRecords] using hr
    rcases hr2 with ⟨i, hiN, heq⟩
    have hid := run_chat_session_session_id cfg prompts (envs i) (i + 1) r heq
    omega
  · have hsub : List.Sublist
        ((workerRecords cfg prompts envs).map (fun r => r.session_id))
        ((List.range cfg.num_sessions).map (fun i => i + 1)) := by
      rw [workerRecords, List.map_filterMap]
      apply filterMap_sublist_map
      intro a _
      cases hx : run_chat_session cfg prompts (envs a) (a + 1) with
      | none => exact Or.inl (by simp [hx])
      | some r =>
        exact Or.inr (by
          simp [hx, run_chat_session_session_id cfg prompts (envs a) (a + 1) r hx])
    exact hsub.nodup
      (List.Nodup.map (fun a b hab => by omega) (List.nodup_range _))

/-- Records produced outside session j + 1 are unaffected by the
environment of worker j: the filterMaps agree after filtering out
session j + 1, whenever both record families tag their records with
their own session ids and the two families agree away from j. -/
theorem filterMap_filter_outside (j : Nat) (f g : Nat → Option SessionResult)
    (l : List Nat)
    (hfg : ∀ i ∈ l, i ≠ j → f i = g i)
    (hf : ∀ i ∈ l, ∀ r, f i = some r → r.session_id = i + 1)
    (hg : ∀ i ∈ l, ∀ r, g i = some r → r.session_id = i + 1) :
    (l.filterMap f).filter (fun r => r.session_id != j + 1)
      = (l.filterMap g).filter (fun r => r.session_id != j + 1) := by
  induction l with
  | nil => rfl
  | cons a l ih =>
    have ihl := ih (fun i hi hij => hfg i (List.mem_cons_of_mem a hi) hij)
      (fun i hi => hf i (List.mem_cons_of_mem a hi))
      (fun i hi => hg i (List.mem_cons_of_mem a hi))
    rw [List.filterMap_cons, List.filterMap_cons]
    by_cases haj : a = j
    · subst haj
      cases hfa : f a with
      | none =>
        cases hga : g a with
        | none => exact ihl
        | some r =>
          have hr := hg a (List.mem_cons_self a l) r hga
          simp [List.filter_cons, hr, ihl]
      | some r =>
        have hr := hf a (List.mem_cons_self a l) r hfa
        cases hga : g a with
        | none => simp [List.filter_cons, hr, ihl]
        | some r2 =>
          have hr2 := hg a (List.mem_cons_self a l) r2 hga
          simp [List.filter_cons, hr, hr2, ihl]
    · rw [hfg a (List.mem_cons_self a l) haj]
      cases hga : g a with
      | none => exact ihl
      | some r =>
        cases hp : (r.session_id != j + 1) <;>
          simp [List.filter_cons, hp, ihl]

/-- C9: a failure in any one worker is locally terminal for that worker
only.  Changing worker j's environment arbitrarily (for example forcing
its login to fail) leaves every other worker's record in the drained
ResultSet untouched, and the orchestrator still completes and persists
the single report file: no worker failure propagates to the
orchestrator as an exception (the workers and the orchestrator are
total functions of their environments; only the top-level interrupt,
modelled as RunOutcome.interrupted, ends a run abnormally). -/
theorem worker_isolation (cfg : TestConfig) (prompts : List String)
    (envs envs' : Nat → WorkerEnv) (j : Nat) (t : String)
    (h : ∀ k, k ≠ j → envs k = envs' k) :
    ((workerRecords cfg prompts envs).filter (fun r => r.session_id != j + 1)
      = (workerRecords cfg prompts envs').filter (fun r => r.session_id != j + 1))
    ∧ (run_load_test cfg prompts envs t ⟨[], []⟩).files
        = [(reportName t, workerRecords cfg prompts envs)]
    ∧ (run_load_test cfg prompts envs' t ⟨[], []⟩).files
        = [(reportName t, workerRecords cfg prompts envs')] := by
  refine ⟨?_, by simp [run_load_test, save_results, writeFile],
    by simp [run_load_test, save_results, writeFile]⟩
  rw [workerRecords, workerRecords]
  apply filterMap_filter_outside
  · intro i _ hij
    rw [h i hij]
  · intro i _ r hr
    exact run_chat_session_session_id cfg prompts (envs i) (i + 1) r hr
  · intro i _ r hr
    exact run_chat_session_session_id cfg prompts (envs' i) (i + 1) r hr

/-- C9 witness: the theorem at three concrete workers, comparing the
all-success run with the run in which worker 0 is forced to fail its
login. -/
theorem worker_isolation_witness :
    ((workerRecords cfgBase ["A"] (fun _ => envSuccess)).filter
        (fun r => r.session_id != 0 + 1)
      = (workerRecords cfgBase ["A"]
            (fun k => if k = 0 then envLoginFail else envSuccess)).filter
          (fun r => r.session_id != 0 + 1))
    ∧ (run_load_test cfgBase ["A"] (fun _ => envSuccess)
          "20240101_120000" ⟨[], []⟩).files
        = [(reportName "20240101_120000",
            workerRecords cfgBase ["A"] (fun _ => envSuccess))]
    ∧ (run_load_test cfgBase ["A"]
          (fun k => if k = 0 then envLoginFail else envSuccess)
          "20240101_120000" ⟨[], []⟩).files
        = [(reportName "20240101_120000",
            workerRecords cfgBase ["A"]
              (fun k => if k = 0 then envLoginFail else envSuccess))] :=
  worker_isolation cfgBase ["A"] (fun _ => envSuccess)
    (fun k => if k = 0 then envLoginFail else envSuccess) 0
    "20240101_120000" (fun k hk => by simp [hk])

end StressTest
